import Mathlib

/-!
Verification development for the goalsync-backend session/token core.

The definitions below are a shallow embedding of:
  - `JWTUtils` (src/unnamed/part_001): token issuance, verification,
    rotation and revocation;
  - the `UserSession` Mongoose model (src/models/UserSession.js): the
    durable per-device session registry;
  - `SocketService` (src/sockets/io.js): the in-memory connection tracker;
  - the startup environment validation (src/unnamed/part_000) and the
    `AuthController.logout` endpoint (src/unnamed/part_005).

A signed JWT is modelled as its decoded claim set together with the signing
key, issuer and audience baked into the signature; signature validity is
modelled as equality of the key used at signing time with the verifier's
key (JWT encoding is injective on header, payload and key).  Times are
epoch seconds as `Nat`.  The random `jti` drawn by `generateRefreshToken`
is modelled as an explicit counter threaded through the store.
-/

namespace GoalSync

/-- Claims object passed to token generation.  The controllers
(src/unnamed/part_005) pass userId, email, onboardingCompleted and deviceId;
`JWTUtils.refreshTokens` builds one without onboardingCompleted, modelled
here as `none`. -/
structure Payload where
  userId : Nat
  email : String
  deviceId : Nat
  onboardingCompleted : Option Bool
deriving DecidableEq

/-- A signed JWT (src/unnamed/part_001, the jwt.sign calls).  `secretUsed`,
`iss` and `aud` record what was baked into the signature at signing time. -/
structure Token where
  payload : Payload
  tokenType : String
  jti : Option Nat
  iat : Nat
  exp : Nat
  secretUsed : String
  iss : String
  aud : String
deriving DecidableEq

/-- The four configuration values read by the `JWTUtils` constructor
(src/unnamed/part_001 lines 6-11), with expiries in seconds. -/
structure JWTConfig where
  accessTokenSecret : String
  refreshTokenSecret : String
  accessExpirySeconds : Nat
  refreshExpirySeconds : Nat
deriving DecidableEq

def issuerName : String := "goalsync-api"

def audienceName : String := "goalsync-frontend"

/-- `JWTUtils.generateAccessToken`: signs the payload with the access secret,
type marker `access`, expiry `now + accessExpirySeconds`. -/
def generateAccessToken (cfg : JWTConfig) (p : Payload) (now : Nat) : Token :=
  { payload := p, tokenType := "access", jti := none, iat := now,
    exp := now + cfg.accessExpirySeconds,
    secretUsed := cfg.accessTokenSecret, iss := issuerName, aud := audienceName }

/-- `JWTUtils.generateRefreshToken`: signs with the refresh secret, type
marker `refresh`, and a unique token id `jti` (randomBytes in the source,
modelled as an explicit counter value). -/
def generateRefreshToken (cfg : JWTConfig) (p : Payload) (jti now : Nat) : Token :=
  { payload := p, tokenType := "refresh", jti := some jti, iat := now,
    exp := now + cfg.refreshExpirySeconds,
    secretUsed := cfg.refreshTokenSecret, iss := issuerName, aud := audienceName }

/-- Result of `JWTUtils.generateTokenPair`. -/
structure TokenPair where
  accessToken : Token
  refreshToken : Token
  accessTokenExpiry : Nat
  refreshTokenExpiry : Nat
deriving DecidableEq

/-- `JWTUtils.getTokenExpiry`: decodes the token and returns its expiry. -/
def getTokenExpiry (t : Token) : Nat := t.exp

/-- `JWTUtils.generateTokenPair` (src/unnamed/part_001 lines 56-66). -/
def generateTokenPair (cfg : JWTConfig) (p : Payload) (jti now : Nat) : TokenPair :=
  let a := generateAccessToken cfg p now
  let r := generateRefreshToken cfg p jti now
  { accessToken := a, refreshToken := r,
    accessTokenExpiry := getTokenExpiry a, refreshTokenExpiry := getTokenExpiry r }

/-- Failure modes of jwt.verify plus the explicit type-marker check; the
source collapses them all into one thrown `Error`. -/
inductive VerifyError where
  | badSignature
  | badIssuer
  | badAudience
  | expired
  | badType
deriving DecidableEq

/-- jwt.verify with an expected secret, fixed issuer/audience options and a
clock: signature, issuer, audience and expiry checks (expired when the clock
has reached `exp`). -/
def jwtVerify (t : Token) (secret : String) (now : Nat) : Except VerifyError Token :=
  if t.secretUsed ≠ secret then .error .badSignature
  else if t.iss ≠ issuerName then .error .badIssuer
  else if t.aud ≠ audienceName then .error .badAudience
  else if t.exp ≤ now then .error .expired
  else .ok t

/-- `JWTUtils.verifyAccessToken` (src/unnamed/part_001 lines 71-86). -/
def verifyAccessToken (cfg : JWTConfig) (t : Token) (now : Nat) :
    Except VerifyError Token :=
  match jwtVerify t cfg.accessTokenSecret now with
  | .error e => .error e
  | .ok d => if d.tokenType ≠ "access" then .error .badType else .ok d

/-- `JWTUtils.verifyRefreshToken` (src/unnamed/part_001 lines 91-106). -/
def verifyRefreshToken (cfg : JWTConfig) (t : Token) (now : Nat) :
    Except VerifyError Token :=
  match jwtVerify t cfg.refreshTokenSecret now with
  | .error e => .error e
  | .ok d => if d.tokenType ≠ "refresh" then .error .badType else .ok d

/-- The environment variables consulted by the `JWTUtils` constructor and the
startup validation (src/unnamed/part_000 lines 32-39).  A JS-falsy (unset or
empty) value is modelled as `none`. -/
structure Env where
  jwtSecret : Option String
  jwtRefreshSecret : Option String
  mongodbUri : Option String
deriving DecidableEq

/-- The `JWTUtils` constructor: each secret falls back to a hardcoded
default when the environment variable is falsy. -/
def cfgOfEnv (env : Env) : JWTConfig :=
  { accessTokenSecret := env.jwtSecret.getD "fallback-access-secret",
    refreshTokenSecret := env.jwtRefreshSecret.getD "fallback-refresh-secret",
    accessExpirySeconds := 900, refreshExpirySeconds := 2592000 }

/-- `requiredEnvVars.filter(varName => !process.env[varName])`
(src/unnamed/part_000 lines 32-33). -/
def missingEnvVarNames (env : Env) : List String :=
  ([("JWT_SECRET", env.jwtSecret), ("JWT_REFRESH_SECRET", env.jwtRefreshSecret),
    ("MONGODB_URI", env.mongodbUri)]).filterMap
    (fun v => if v.2 = none then some v.1 else none)

/-- `if (missingEnvVars.length > 0) process.exit(1)`
(src/unnamed/part_000 lines 35-39). -/
def startupExits (env : Env) : Bool :=
  !(missingEnvVarNames env).isEmpty

/-- One `UserSession` document (src/models/UserSession.js).  Device metadata
(name, type, browser, os, ip, userAgent, fingerprint, location) plays no role
in the claims and is omitted; `refreshToken` is `none` when the source stores
null. -/
structure Session where
  userId : Nat
  deviceId : Nat
  refreshToken : Option Token
  refreshTokenExpires : Nat
  loginTime : Nat
  lastActive : Nat
  logoutTime : Option Nat
  isActive : Bool
deriving DecidableEq

/-- The `UserSession` collection together with the state of the `jti`
generator (`randomBytes` in the source, modelled as a fresh counter). -/
structure Store where
  sessions : List Session
  nextJti : Nat
deriving DecidableEq

/-- The query of `UserSession.findOne` inside `JWTUtils.refreshTokens`:
`{ deviceId, refreshToken, isActive: true, refreshTokenExpires: { $gt: now } }`. -/
def matchesRefresh (s : Session) (r : Token) (d now : Nat) : Bool :=
  decide (s.deviceId = d) && decide (s.refreshToken = some r) && s.isActive &&
    decide (now < s.refreshTokenExpires)

/-- `userSessionSchema.methods.renewRefreshToken`
(src/models/UserSession.js lines 137-142). -/
def renewRefreshToken (s : Session) (newToken : Token) (expiresAt now : Nat) : Session :=
  { s with
    refreshToken := some newToken
    refreshTokenExpires := expiresAt
    lastActive := now }

/-- findOne-then-renew inside `JWTUtils.refreshTokens`: the first session
matching the query is overwritten with the new refresh token; `none` when no
session matches (throws `Invalid session` in the source). -/
def rotateSessions (pair : TokenPair) (r : Token) (d now : Nat) :
    List Session → Option (List Session)
  | [] => none
  | s :: rest =>
    if matchesRefresh s r d now then
      some (renewRefreshToken s pair.refreshToken pair.refreshTokenExpiry now :: rest)
    else
      (rotateSessions pair r d now rest).map (fun rest2 => s :: rest2)

/-- The two failure modes of `JWTUtils.refreshTokens`: a refresh-token
verification failure, or no matching active session (`Invalid session`,
the SessionNotFoundError of the spec). -/
inductive RefreshError where
  | invalidToken (e : VerifyError)
  | sessionNotFound
deriving DecidableEq

/-- `JWTUtils.refreshTokens` (src/unnamed/part_001 lines 251-285): verify the
old refresh token, look up the matching active session, mint a new pair from
the decoded userId/email plus the request deviceId, and overwrite the
session's stored token with the new one. -/
def refreshTokens (cfg : JWTConfig) (st : Store) (r : Token) (d now : Nat) :
    Except RefreshError (TokenPair × Store) :=
  match verifyRefreshToken cfg r now with
  | .error e => .error (.invalidToken e)
  | .ok decoded =>
    match rotateSessions (generateTokenPair cfg
        { userId := decoded.payload.userId, email := decoded.payload.email,
          deviceId := d, onboardingCompleted := none } st.nextJti now) r d now
        st.sessions with
    | none => .error .sessionNotFound
    | some sessions2 =>
      .ok (generateTokenPair cfg
        { userId := decoded.payload.userId, email := decoded.payload.email,
          deviceId := d, onboardingCompleted := none } st.nextJti now,
        { sessions := sessions2, nextJti := st.nextJti + 1 })

/-- `userSessionSchema.methods.logout` (src/models/UserSession.js lines
130-135): deactivate, stamp logout time, null the stored token. -/
def logoutSession (s : Session) (now : Nat) : Session :=
  { s with isActive := false, logoutTime := some now, refreshToken := none }

/-- findOne-then-logout inside `JWTUtils.revokeRefreshToken`: query
`{ deviceId, refreshToken, isActive: true }`; when no session matches the
list is unchanged (the source skips the logout and still returns true). -/
def revokeSessions (r : Option Token) (d now : Nat) : List Session → List Session
  | [] => []
  | s :: rest =>
    if decide (s.deviceId = d) && decide (s.refreshToken = r) && s.isActive then
      logoutSession s now :: rest
    else
      s :: revokeSessions r d now rest

/-- `JWTUtils.revokeRefreshToken` (src/unnamed/part_001 lines 290-306):
always returns true. -/
def revokeRefreshToken (st : Store) (r : Option Token) (d now : Nat) : Store × Bool :=
  ({ st with sessions := revokeSessions r d now st.sessions }, true)

/-- The updateMany query of `UserSession.revokeAllUserSessions`
(src/models/UserSession.js lines 176-186): `{ userId, isActive: true }`,
plus `deviceId: { $ne: exceptDeviceId }` when an excepted device is given. -/
def revokeQueryMatch (u : Nat) (exceptDeviceId : Option Nat) (s : Session) : Bool :=
  decide (s.userId = u) && s.isActive &&
    (match exceptDeviceId with
     | none => true
     | some e => decide (s.deviceId ≠ e))

/-- `UserSession.revokeAllUserSessions`: every matching session is
deactivated, logout-stamped and its token nulled. -/
def revokeAllUserSessions (u : Nat) (exceptDeviceId : Option Nat) (now : Nat)
    (l : List Session) : List Session :=
  l.map (fun s => if revokeQueryMatch u exceptDeviceId s then logoutSession s now else s)

/-- `JWTUtils.revokeAllUserTokens` (src/unnamed/part_001 lines 311-318):
always returns true. -/
def revokeAllUserTokens (st : Store) (u : Nat) (exceptDeviceId : Option Nat)
    (now : Nat) : Store × Bool :=
  ({ st with sessions := revokeAllUserSessions u exceptDeviceId now st.sessions }, true)

/-- `UserSession.findOneAndUpdate({ deviceId }, ..., { upsert: true })` inside
`JWTUtils.createSession` (src/unnamed/part_001 lines 227-246): the first
session with this deviceId is overwritten (user binding, token, expiry,
timestamps, reactivation); a new document is inserted when none exists.
The update does not touch `logoutTime`. -/
def upsertSession (u d : Nat) (tok : Token) (now : Nat) : List Session → List Session
  | [] =>
    [{ userId := u, deviceId := d, refreshToken := some tok,
       refreshTokenExpires := getTokenExpiry tok, loginTime := now,
       lastActive := now, logoutTime := none, isActive := true }]
  | s :: rest =>
    if s.deviceId = d then
      { s with
        userId := u
        refreshToken := some tok
        refreshTokenExpires := getTokenExpiry tok
        loginTime := now
        lastActive := now
        isActive := true } :: rest
    else
      s :: upsertSession u d tok now rest

/-- `JWTUtils.createSession` on the store. -/
def createSession (st : Store) (u d : Nat) (tok : Token) (now : Nat) : Store :=
  { st with sessions := upsertSession u d tok now st.sessions }

/-- A sequence of `createSession` upserts, each op being
(userId, deviceId, token, now). -/
def applyUpserts (ops : List (Nat × Nat × Token × Nat)) (l : List Session) :
    List Session :=
  ops.foldl (fun acc op => upsertSession op.1 op.2.1 op.2.2.1 op.2.2.2 acc) l

/-- `AuthController.logout` (src/unnamed/part_005 lines 167-187): reads only
`deviceId` from the request body, calls `revokeRefreshToken(null, deviceId)`
when it is truthy, and responds with success unconditionally. -/
def logoutEndpoint (st : Store) (bodyDeviceId : Option Nat) (now : Nat) :
    Store × Bool :=
  match bodyDeviceId with
  | some d => ((revokeRefreshToken st none d now).1, true)
  | none => (st, true)

/-- Schema invariant: `deviceId` is a unique index
(src/models/UserSession.js lines 12-16 and 118). -/
def uniqueDeviceIds (l : List Session) : Prop :=
  l.Pairwise (fun a b => a.deviceId ≠ b.deviceId)

/-- Every `jti` stored in a session's refresh token is below the generator
counter: freshness of `randomBytes` token ids. -/
def sessionJtiBelow (n : Nat) (s : Session) : Bool :=
  match s.refreshToken with
  | none => true
  | some t =>
    match t.jti with
    | none => true
    | some j => decide (j < n)

/-- Store invariant: all stored token ids were drawn before the current
counter value. -/
def jtiFresh (st : Store) : Prop :=
  ∀ s ∈ st.sessions, sessionJtiBelow st.nextJti s = true

/-- Association-list update-or-append, modelling `Map.set` of the two JS
maps in `SocketService`. -/
def setEntry {α β : Type} [DecidableEq α] (k : α) (v : β) :
    List (α × β) → List (α × β)
  | [] => [(k, v)]
  | e :: rest => if e.1 = k then (k, v) :: rest else e :: setEntry k v rest

/-- Association-list lookup, modelling `Map.get`/`Map.has`. -/
def lookupEntry {α β : Type} [DecidableEq α] (k : α) :
    List (α × β) → Option β
  | [] => none
  | e :: rest => if e.1 = k then some e.2 else lookupEntry k rest

/-- Association-list removal of the (unique) entry for a key, modelling
`Map.delete`. -/
def removeEntry {α β : Type} [DecidableEq α] (k : α) :
    List (α × β) → List (α × β)
  | [] => []
  | e :: rest => if e.1 = k then rest else e :: removeEntry k rest

/-- JS `Map` keys are unique; the model keeps this as an invariant. -/
def keysNodup {α β : Type} (l : List (α × β)) : Prop :=
  (l.map Prod.fst).Nodup

/-- The two in-memory maps of `SocketService` (src/sockets/io.js lines 8-9):
`connectedUsers : userId -> Set of socketIds` and
`userSockets : socketId -> userId`. -/
structure Tracker where
  connectedUsers : List (Nat × List Nat)
  userSockets : List (Nat × Nat)
deriving DecidableEq

/-- Observable socket-side effects of the tracker operations:
the `connected` confirmation, `broadcastUserStatus` online/offline calls,
the `force_disconnect` notice carrying a reason, the severing
`socket.disconnect(true)`, and a room emit of `broadcastToUser`. -/
inductive SockOut where
  | connectedMsg (socketId userId : Nat)
  | statusBroadcast (userId : Nat) (online : Bool)
  | forceMsg (socketId : Nat) (reason : String)
  | severed (socketId : Nat)
  | roomEmit (socketId : Nat) (event : String)
deriving DecidableEq

/-- The socket set currently tracked for a user (empty when the user has no
entry). -/
def userSocketsOf (t : Tracker) (u : Nat) : List Nat :=
  (lookupEntry u t.connectedUsers).getD []

/-- JS `Set.add`: appends when absent, keeps insertion order. -/
def addSocket (l : List Nat) (sid : Nat) : List Nat :=
  if sid ∈ l then l else l ++ [sid]

/-- `SocketService.handleConnection` (src/sockets/io.js lines 59-90): create
the user's set when missing, add the socket to both maps, emit the
`connected` confirmation, and call `broadcastUserStatus(userId, online)`
unconditionally.  The `socket.join` room registration is handled separately
by `broadcastToUser`. -/
def handleConnection (t : Tracker) (sid u : Nat) : Tracker × List SockOut :=
  ({ connectedUsers := setEntry u (addSocket (userSocketsOf t u) sid) t.connectedUsers,
     userSockets := setEntry sid u t.userSockets },
   [SockOut.connectedMsg sid u, SockOut.statusBroadcast u true])

/-- `SocketService.handleDisconnection` (src/sockets/io.js lines 180-199):
delete the socket from the user's set; when the set becomes empty remove the
user entry and broadcast the offline status; always delete the
socketId-to-userId mapping.  `u` is `socket.userId` carried by the socket. -/
def handleDisconnection (t : Tracker) (sid u : Nat) : Tracker × List SockOut :=
  match lookupEntry u t.connectedUsers with
  | none => ({ t with userSockets := removeEntry sid t.userSockets }, [])
  | some sockets =>
    let sockets2 := sockets.erase sid
    if sockets2.isEmpty then
      ({ connectedUsers := removeEntry u t.connectedUsers,
         userSockets := removeEntry sid t.userSockets },
       [SockOut.statusBroadcast u false])
    else
      ({ connectedUsers := setEntry u sockets2 t.connectedUsers,
         userSockets := removeEntry sid t.userSockets }, [])

/-- The forEach fan-out of `SocketService.forceDisconnectUser`: for each
tracked socketId, when the socket is still present in `io.sockets.sockets`
(the `live` predicate; the `if (socket)` guard skips dead ones), emit the
`force_disconnect` notice, sever the socket, and run the disconnect handler
the severing triggers. -/
def forceLoop (u : Nat) (reason : String) (live : Nat → Bool) :
    Tracker → List Nat → Tracker × List SockOut
  | t, [] => (t, [])
  | t, sid :: rest =>
    if live sid then
      ((forceLoop u reason live (handleDisconnection t sid u).1 rest).1,
       SockOut.forceMsg sid reason :: SockOut.severed sid ::
         ((handleDisconnection t sid u).2 ++
          (forceLoop u reason live (handleDisconnection t sid u).1 rest).2))
    else
      forceLoop u reason live t rest

/-- `SocketService.forceDisconnectUser` (src/sockets/io.js lines 243-254).
The third component models the JS return value: the function has no return
statement, so the caller receives no aggregate failure count (`none`). -/
def forceDisconnectUser (t : Tracker) (u : Nat) (reason : String)
    (live : Nat → Bool) : Tracker × List SockOut × Option Nat :=
  match lookupEntry u t.connectedUsers with
  | none => (t, [], none)
  | some sockets =>
    let r := forceLoop u reason live t sockets
    (r.1, r.2, none)

/-- `SocketService.broadcastToUser` (src/sockets/io.js lines 202-207):
`io.to(room).emit` delivers the stamped event to every member of the user's
room; the JS method returns no value, modelled as the `none` count. -/
def broadcastToUser (roomMembers : List Nat) (event : String) :
    List SockOut × Option Nat :=
  (roomMembers.map (fun sid => SockOut.roomEmit sid event), none)

/-- Number of occurrences of one output in a trace. -/
def countOut (o : SockOut) (l : List SockOut) : Nat :=
  l.countP (fun x => decide (x = o))

/-! Concrete fixtures used by the witness and counterexample theorems. -/

def cfg0 : JWTConfig :=
  { accessTokenSecret := "as", refreshTokenSecret := "rs",
    accessExpirySeconds := 900, refreshExpirySeconds := 2592000 }

def p0 : Payload :=
  { userId := 1, email := "a@x.com", deviceId := 5, onboardingCompleted := some false }

def r0 : Token := generateRefreshToken cfg0 p0 0 0

def r1 : Token := generateRefreshToken cfg0 p0 1 5

def sess0 : Session :=
  { userId := 1, deviceId := 5, refreshToken := some r0,
    refreshTokenExpires := getTokenExpiry r0, loginTime := 0, lastActive := 0,
    logoutTime := none, isActive := true }

def st1 : Store := { sessions := [sess0], nextJti := 1 }

def res1 : TokenPair × Store :=
  match refreshTokens cfg0 st1 r0 5 10 with
  | .ok x => x
  | .error _ => (generateTokenPair cfg0 p0 0 0, st1)

def stEmpty : Store := { sessions := [], nextJti := 0 }

def envUnset : Env :=
  { jwtSecret := none, jwtRefreshSecret := none,
    mongodbUri := some "mongodb://localhost/goalsync" }

def emptyTracker : Tracker := { connectedUsers := [], userSockets := [] }

def tracker6 : Tracker :=
  { connectedUsers := [(7, [1, 2])], userSockets := [(1, 7), (2, 7)] }

def tracker8 : Tracker :=
  { connectedUsers := [(3, [1, 2])], userSockets := [(1, 3), (2, 3)] }

def live8 : Nat → Bool := fun sid => sid == 2

def allLive : Nat → Bool := fun _ => true

/-! Helper lemmas about token verification. -/

theorem verifyRefreshToken_ok_iff (cfg : JWTConfig) (t x : Token) (now : Nat) :
    verifyRefreshToken cfg t now = .ok x ↔
      x = t ∧ t.secretUsed = cfg.refreshTokenSecret ∧ t.iss = issuerName ∧
      t.aud = audienceName ∧ now < t.exp ∧ t.tokenType = "refresh" := by
  constructor
  · intro h
    unfold verifyRefreshToken jwtVerify at h
    split_ifs at h with h1 h2 h3 h4
    all_goals simp at h
    by_cases ht : t.tokenType = "refresh"
    · rw [if_pos ht] at h
      injection h with hx
      exact ⟨hx.symm, not_not.mp h1, not_not.mp h2, not_not.mp h3,
        Nat.not_le.mp h4, ht⟩
    · rw [if_neg ht] at h
      exact absurd h (by simp)
  · rintro ⟨rfl, hs, hi, ha, he, ht⟩
    unfold verifyRefreshToken jwtVerify
    simp [hs, hi, ha, ht, Nat.not_le.mpr he]

/-- Claim C2: for every claims object, verifying the access token of a
freshly issued pair before its expiry succeeds and returns decoded claims
with type marker `access` and the original user id and email. -/
theorem verifyAccess_issueTokenPair (cfg : JWTConfig) (p : Payload)
    (jti now now2 : Nat) (h : now2 < now + cfg.accessExpirySeconds) :
    ∃ d, verifyAccessToken cfg (generateTokenPair cfg p jti now).accessToken now2
        = .ok d ∧
      d.tokenType = "access" ∧ d.payload.userId = p.userId ∧
      d.payload.email = p.email := by
  refine ⟨generateAccessToken cfg p now, ?_, rfl, rfl, rfl⟩
  unfold verifyAccessToken jwtVerify generateTokenPair generateAccessToken
  simp [Nat.not_le.mpr h]

theorem verifyAccess_issueTokenPair_witness :
    (0 : Nat) < 0 + cfg0.accessExpirySeconds ∧
    ∃ d, verifyAccessToken cfg0 (generateTokenPair cfg0 p0 0 0).accessToken 0
        = .ok d ∧
      d.tokenType = "access" ∧ d.payload.userId = p0.userId ∧
      d.payload.email = p0.email :=
  ⟨by decide, verifyAccess_issueTokenPair cfg0 p0 0 0 0 (by decide)⟩

/-- Claim C9: for every issued token pair, the refresh verifier rejects the
pair's access token and the access verifier rejects the pair's refresh
token, at every clock value: the type marker (or the distinct signing
secret) always causes a failure. -/
theorem tokenType_cross_rejected (cfg : JWTConfig) (p : Payload)
    (jti now now2 : Nat) :
    (∃ e, verifyRefreshToken cfg (generateTokenPair cfg p jti now).accessToken now2
        = .error e) ∧
    (∃ e, verifyAccessToken cfg (generateTokenPair cfg p jti now).refreshToken now2
        = .error e) := by
  constructor
  · unfold verifyRefreshToken jwtVerify generateTokenPair generateAccessToken
    simp only []
    split_ifs <;> simp_all
  · unfold verifyAccessToken jwtVerify generateTokenPair generateRefreshToken
    simp only []
    split_ifs <;> simp_all

/-- Claim C7 counterexample: with both signing secrets unset, issuance does
not fail: `generateTokenPair` still returns a pair, signed with the
constructor's hardcoded fallback secrets. -/
theorem issue_without_secrets_signs_fallback :
    (generateTokenPair (cfgOfEnv envUnset) p0 0 0).accessToken.secretUsed
      = "fallback-access-secret" ∧
    (generateTokenPair (cfgOfEnv envUnset) p0 0 0).refreshToken.secretUsed
      = "fallback-refresh-secret" := by
  constructor <;> rfl

/-- Claim C7 amended: when either signing secret is unset, the startup
environment validation exits the process before serving, but `JWTUtils`
itself never raises: `generateTokenPair` still returns a pair signed with
the constructor's (fallback-substituted) secrets. -/
theorem missing_secret_fatal_at_startup (env : Env) (p : Payload)
    (jti now : Nat) (h : env.jwtSecret = none ∨ env.jwtRefreshSecret = none) :
    startupExits env = true ∧
    (generateTokenPair (cfgOfEnv env) p jti now).accessToken.secretUsed
      = (cfgOfEnv env).accessTokenSecret ∧
    (generateTokenPair (cfgOfEnv env) p jti now).refreshToken.secretUsed
      = (cfgOfEnv env).refreshTokenSecret := by
  refine ⟨?_, rfl, rfl⟩
  rcases h with h | h <;> simp [startupExits, missingEnvVarNames, h]

theorem missing_secret_fatal_at_startup_witness :
    (envUnset.jwtSecret = none ∨ envUnset.jwtRefreshSecret = none) ∧
    (startupExits envUnset = true ∧
     (generateTokenPair (cfgOfEnv envUnset) p0 0 0).accessToken.secretUsed
       = (cfgOfEnv envUnset).accessTokenSecret ∧
     (generateTokenPair (cfgOfEnv envUnset) p0 0 0).refreshToken.secretUsed
       = (cfgOfEnv envUnset).refreshTokenSecret) :=
  ⟨Or.inl rfl, missing_secret_fatal_at_startup envUnset p0 0 0 (Or.inl rfl)⟩

/-! Helper lemmas about the session registry. -/

theorem matchesRefresh_iff (s : Session) (r : Token) (d now : Nat) :
    matchesRefresh s r d now = true ↔
      s.deviceId = d ∧ s.refreshToken = some r ∧ s.isActive = true ∧
      now < s.refreshTokenExpires := by
  simp [matchesRefresh, and_assoc]

theorem matchesRefresh_true_of_le (s : Session) (r : Token) (d now now2 : Nat)
    (hle : now ≤ now2) (h : matchesRefresh s r d now2 = true) :
    matchesRefresh s r d now = true := by
  obtain ⟨h1, h2, h3, h4⟩ := (matchesRefresh_iff s r d now2).mp h
  exact (matchesRefresh_iff s r d now).mpr ⟨h1, h2, h3, Nat.lt_of_le_of_lt hle h4⟩

theorem rotateSessions_none (pair : TokenPair) (r : Token) (d now : Nat)
    (l : List Session) (h : ∀ s ∈ l, matchesRefresh s r d now = false) :
    rotateSessions pair r d now l = none := by
  induction l with
  | nil => rfl
  | cons s rest ih =>
    have hs : matchesRefresh s r d now = false := h s (List.mem_cons_self s rest)
    rw [rotateSessions, if_neg (by simp [hs]),
      ih (fun x hx => h x (List.mem_cons_of_mem s hx))]
    rfl

theorem rotateSessions_mem_match (pair : TokenPair) (r : Token) (d now : Nat)
    (l l2 : List Session) (h : rotateSessions pair r d now l = some l2) :
    ∃ s ∈ l, matchesRefresh s r d now = true := by
  induction l generalizing l2 with
  | nil => simp [rotateSessions] at h
  | cons s rest ih =>
    rw [rotateSessions] at h
    by_cases hm : matchesRefresh s r d now = true
    · exact ⟨s, List.mem_cons_self s rest, hm⟩
    · rw [if_neg hm] at h
      obtain ⟨rest2, hr, _⟩ := Option.map_eq_some'.mp h
      obtain ⟨x, hx, hxm⟩ := ih rest2 hr
      exact ⟨x, List.mem_cons_of_mem s hx, hxm⟩

theorem rotateSessions_replay_none (pair pair2 : TokenPair) (r : Token)
    (d now now2 : Nat) (hnew : pair.refreshToken ≠ r) (hle : now ≤ now2) :
    ∀ l l2 : List Session, uniqueDeviceIds l →
      rotateSessions pair r d now l = some l2 →
      rotateSessions pair2 r d now2 l2 = none := by
  intro l
  induction l with
  | nil => intro l2 _ h; simp [rotateSessions] at h
  | cons s rest ih =>
    intro l2 hu h
    have hu1 : ∀ b ∈ rest, s.deviceId ≠ b.deviceId := (List.pairwise_cons.mp hu).1
    have hu2 : uniqueDeviceIds rest := (List.pairwise_cons.mp hu).2
    rw [rotateSessions] at h
    by_cases hm : matchesRefresh s r d now = true
    · rw [if_pos hm] at h
      obtain rfl : renewRefreshToken s pair.refreshToken pair.refreshTokenExpiry now
          :: rest = l2 := by injection h
      have hd : s.deviceId = d := ((matchesRefresh_iff s r d now).mp hm).1
      apply rotateSessions_none
      intro x hx
      rcases List.mem_cons.mp hx with rfl | hx
      · simp [matchesRefresh, renewRefreshToken, hnew]
      · have hxd : x.deviceId ≠ d := fun hc => hu1 x hx (hd.trans hc.symm)
        simp [matchesRefresh, hxd]
    · rw [if_neg hm] at h
      obtain ⟨rest2, hr, rfl⟩ := Option.map_eq_some'.mp h
      have hm2 : matchesRefresh s r d now2 = false := by
        rw [← Bool.not_eq_true]
        exact fun hc => hm (matchesRefresh_true_of_le s r d now now2 hle hc)
      rw [rotateSessions, if_neg (by simp [hm2]), ih rest2 hu2 hr]
      rfl

theorem refreshTokens_eq_sessionNotFound (cfg : JWTConfig) (st : Store)
    (r : Token) (d now : Nat)
    (hv : verifyRefreshToken cfg r now = .ok r)
    (hr : rotateSessions (generateTokenPair cfg
        { userId := r.payload.userId, email := r.payload.email,
          deviceId := d, onboardingCompleted := none } st.nextJti now) r d now
        st.sessions = none) :
    refreshTokens cfg st r d now = .error .sessionNotFound := by
  rw [refreshTokens]
  split
  next e heq => rw [hv] at heq; cases heq
  next decoded heq =>
    rw [hv] at heq
    injection heq with h2
    subst h2
    split
    next => rfl
    next l3 heq2 => rw [hr] at heq2; cases heq2

/-- Claim C1: once `refreshTokens` has successfully rotated refresh token
`r` for device `d`, replaying `r` for that device (while `r` itself is not
yet expired) is rejected with the session-not-found error: the old token is
permanently invalid. -/
theorem rotateRefresh_replay_rejected (cfg : JWTConfig) (st : Store) (r : Token)
    (d now now2 : Nat) (res : TokenPair × Store)
    (hu : uniqueDeviceIds st.sessions) (hf : jtiFresh st)
    (hrot : refreshTokens cfg st r d now = .ok res)
    (hle : now ≤ now2) (hexp : now2 < r.exp) :
    refreshTokens cfg res.2 r d now2 = .error .sessionNotFound := by
  rw [refreshTokens] at hrot
  split at hrot
  next e heq => cases hrot
  next decoded heq =>
    obtain ⟨hdec, hs, hi, ha, _, ht⟩ :=
      (verifyRefreshToken_ok_iff cfg r decoded now).mp heq
    rw [hdec] at hrot
    split at hrot
    next heq2 => cases hrot
    next l2 heq2 =>
      injection hrot with hres
      subst hres
      have hnew : (generateTokenPair cfg
          { userId := r.payload.userId, email := r.payload.email,
            deviceId := d, onboardingCompleted := none } st.nextJti now).refreshToken
          ≠ r := by
        obtain ⟨s, hsmem, hsm⟩ := rotateSessions_mem_match _ _ _ _ _ _ heq2
        have hst : s.refreshToken = some r := ((matchesRefresh_iff s r d now).mp hsm).2.1
        have hb := hf s hsmem
        intro hcontra
        rw [sessionJtiBelow, hst, ← hcontra] at hb
        simp [generateTokenPair, generateRefreshToken] at hb
      exact refreshTokens_eq_sessionNotFound cfg _ r d now2
        ((verifyRefreshToken_ok_iff cfg r r now2).mpr ⟨rfl, hs, hi, ha, hexp, ht⟩)
        (rotateSessions_replay_none _ _ _ _ _ _ hnew hle st.sessions l2 hu heq2)

theorem rotateRefresh_replay_rejected_witness :
    (uniqueDeviceIds st1.sessions ∧ jtiFresh st1 ∧
     refreshTokens cfg0 st1 r0 5 10 = .ok res1 ∧ (10 : Nat) ≤ 20 ∧ (20 : Nat) < r0.exp) ∧
    refreshTokens cfg0 res1.2 r0 5 20 = .error .sessionNotFound :=
  ⟨⟨by simp [uniqueDeviceIds, st1],
    by intro s hs; simp [st1] at hs; subst hs; rfl,
    by rfl, by decide, by decide⟩,
   rotateRefresh_replay_rejected cfg0 st1 r0 5 10 20 res1
     (by simp [uniqueDeviceIds, st1])
     (by intro s hs; simp [st1] at hs; subst hs; rfl)
     (by rfl) (by decide) (by decide)⟩

/-- Claim C3: after `revokeAllUserTokens u` (no excepted device), rotation
with any refresh token that was valid for one of the user's devices fails
with the session-not-found error, for every device id presented (the token
still verifies; every session storing it belongs to `u`). -/
theorem revokeAll_then_rotate_fails (cfg : JWTConfig) (st : Store) (u : Nat)
    (r : Token) (now now2 : Nat) (s0 : Session)
    (hown : ∀ s ∈ st.sessions, s.refreshToken = some r → s.userId = u)
    (_hs0 : s0 ∈ st.sessions) (_hu0 : s0.userId = u)
    (_htok : s0.refreshToken = some r) (_hact : s0.isActive = true)
    (_hexp0 : now < s0.refreshTokenExpires)
    (hver : verifyRefreshToken cfg r now2 = .ok r) :
    ∀ d, refreshTokens cfg (revokeAllUserTokens st u none now).1 r d now2
      = .error .sessionNotFound := by
  intro d
  apply refreshTokens_eq_sessionNotFound cfg _ r d now2 hver
  apply rotateSessions_none
  intro x hx
  simp only [revokeAllUserTokens, revokeAllUserSessions] at hx
  obtain ⟨s, hsmem, hseq⟩ := List.mem_map.mp hx
  by_cases hq : revokeQueryMatch u none s = true
  · rw [if_pos hq] at hseq
    subst hseq
    simp [matchesRefresh, logoutSession]
  · rw [if_neg hq] at hseq
    subst hseq
    rw [← Bool.not_eq_true]
    intro hc
    obtain ⟨_, hr2, hia, _⟩ := (matchesRefresh_iff s r d now2).mp hc
    exact hq (by simp [revokeQueryMatch, hown s hsmem hr2, hia])

theorem revokeAll_then_rotate_fails_witness :
    ((∀ s ∈ st1.sessions, s.refreshToken = some r0 → s.userId = 1) ∧
     sess0 ∈ st1.sessions ∧ sess0.userId = 1 ∧
     sess0.refreshToken = some r0 ∧ sess0.isActive = true ∧
     (10 : Nat) < sess0.refreshTokenExpires ∧
     verifyRefreshToken cfg0 r0 20 = .ok r0) ∧
    ∀ d, refreshTokens cfg0 (revokeAllUserTokens st1 1 none 10).1 r0 d 20
      = .error .sessionNotFound :=
  ⟨⟨by intro s hs _; simp [st1] at hs; subst hs; rfl,
    by simp [st1], rfl, rfl, rfl, by decide, by rfl⟩,
   revokeAll_then_rotate_fails cfg0 st1 1 r0 10 20 sess0
     (by intro s hs _; simp [st1] at hs; subst hs; rfl)
     (by simp [st1]) rfl rfl rfl (by decide) (by rfl)⟩

/-- Two sessions of a deviceId-unique list sharing a deviceId are the same
session. -/
theorem uniqueDevice_mem_eq (l : List Session) (hu : uniqueDeviceIds l)
    (a b : Session) (ha : a ∈ l) (hb : b ∈ l) (hd : a.deviceId = b.deviceId) :
    a = b := by
  induction l with
  | nil => cases ha
  | cons s rest ih =>
    have hu1 : ∀ x ∈ rest, s.deviceId ≠ x.deviceId := (List.pairwise_cons.mp hu).1
    have hu2 : uniqueDeviceIds rest := (List.pairwise_cons.mp hu).2
    rcases List.mem_cons.mp ha with rfl | ha2 <;>
      rcases List.mem_cons.mp hb with rfl | hb2
    · rfl
    · exact absurd hd (hu1 b hb2)
    · exact absurd hd.symm (hu1 a ha2)
    · exact ih hu2 ha2 hb2

theorem revokeSessions_id (r : Option Token) (d now : Nat) (l : List Session)
    (h : ∀ x ∈ l, ¬(x.deviceId = d ∧ x.refreshToken = r ∧ x.isActive = true)) :
    revokeSessions r d now l = l := by
  induction l with
  | nil => rfl
  | cons s rest ih =>
    have hs := h s (List.mem_cons_self s rest)
    rw [revokeSessions, if_neg (by simpa using hs),
      ih (fun x hx => h x (List.mem_cons_of_mem s hx))]

/-- Claim C10: the single-device logout endpoint passes a null refresh
token to the revoke operation; for a device whose active session stores a
non-null token, no session matches, the store is left unchanged (active
flag, stored token and logout timestamp included), and the endpoint still
reports success. -/
theorem logout_null_token_noop (st : Store) (d now : Nat) (s : Session)
    (r : Token) (hu : uniqueDeviceIds st.sessions) (hs : s ∈ st.sessions)
    (hd : s.deviceId = d) (_hact : s.isActive = true)
    (htok : s.refreshToken = some r) :
    logoutEndpoint st (some d) now = (st, true) := by
  simp only [logoutEndpoint, revokeRefreshToken]
  rw [revokeSessions_id]
  · intro x hx ⟨hxd, hxr, _⟩
    have hxs : x = s := uniqueDevice_mem_eq st.sessions hu x s hx hs (hxd.trans hd.symm)
    rw [hxs, htok] at hxr
    cases hxr

theorem logout_null_token_noop_witness :
    (uniqueDeviceIds st1.sessions ∧ sess0 ∈ st1.sessions ∧ sess0.deviceId = 5 ∧
     sess0.isActive = true ∧ sess0.refreshToken = some r0) ∧
    logoutEndpoint st1 (some 5) 99 = (st1, true) :=
  ⟨⟨by simp [uniqueDeviceIds, st1], by simp [st1], rfl, rfl, rfl⟩,
   logout_null_token_noop st1 5 99 sess0 r0
     (by simp [uniqueDeviceIds, st1]) (by simp [st1]) rfl rfl rfl⟩

/-! Helper lemmas about the session upsert. -/

theorem upsert_mem_char (u d : Nat) (tok : Token) (now : Nat) :
    ∀ l : List Session, uniqueDeviceIds l →
      ∀ b ∈ upsertSession u d tok now l,
        (b.deviceId = d ∧ b.refreshToken = some tok ∧ b.isActive = true) ∨
        (b ∈ l ∧ b.deviceId ≠ d) := by
  intro l
  induction l with
  | nil =>
    intro _ b hb
    simp only [upsertSession, List.mem_singleton] at hb
    subst hb
    exact Or.inl ⟨rfl, rfl, rfl⟩
  | cons s rest ih =>
    intro hu b hb
    have hu1 : ∀ x ∈ rest, s.deviceId ≠ x.deviceId := (List.pairwise_cons.mp hu).1
    have hu2 : uniqueDeviceIds rest := (List.pairwise_cons.mp hu).2
    rw [upsertSession] at hb
    by_cases hm : s.deviceId = d
    · rw [if_pos hm] at hb
      rcases List.mem_cons.mp hb with rfl | hb2
      · exact Or.inl ⟨hm, rfl, rfl⟩
      · exact Or.inr ⟨List.mem_cons_of_mem s hb2,
          fun hc => hu1 b hb2 (hm.trans hc.symm)⟩
    · rw [if_neg hm] at hb
      rcases List.mem_cons.mp hb with rfl | hb2
      · exact Or.inr ⟨List.mem_cons_self b rest, hm⟩
      · rcases ih hu2 b hb2 with h | ⟨hb3, hbd⟩
        · exact Or.inl h
        · exact Or.inr ⟨List.mem_cons_of_mem s hb3, hbd⟩

theorem upsert_countP (u d : Nat) (tok : Token) (now : Nat) :
    ∀ l : List Session, uniqueDeviceIds l →
      (upsertSession u d tok now l).countP (fun s => decide (s.deviceId = d)) = 1 := by
  intro l
  induction l with
  | nil => intro _; simp [upsertSession]
  | cons s rest ih =>
    intro hu
    have hu1 : ∀ x ∈ rest, s.deviceId ≠ x.deviceId := (List.pairwise_cons.mp hu).1
    have hu2 : uniqueDeviceIds rest := (List.pairwise_cons.mp hu).2
    rw [upsertSession]
    by_cases hm : s.deviceId = d
    · rw [if_pos hm]
      have hz : rest.countP (fun s => decide (s.deviceId = d)) = 0 := by
        rw [List.countP_eq_zero]
        intro x hx
        simp only [decide_eq_true_eq]
        exact fun hc => hu1 x hx (hm.trans hc.symm)
      rw [List.countP_cons_of_pos _ _ (by simpa using hm), hz]
    · rw [if_neg hm]
      rw [List.countP_cons_of_neg _ _ (by simpa using hm), ih hu2]

theorem upsert_exists (u d : Nat) (tok : Token) (now : Nat) (l : List Session) :
    ∃ b ∈ upsertSession u d tok now l,
      b.deviceId = d ∧ b.refreshToken = some tok ∧ b.isActive = true := by
  induction l with
  | nil => exact ⟨_, List.mem_singleton_self _, rfl, rfl, rfl⟩
  | cons s rest ih =>
    rw [upsertSession]
    by_cases hm : s.deviceId = d
    · rw [if_pos hm]
      exact ⟨_, List.mem_cons_self _ rest, hm, rfl, rfl⟩
    · rw [if_neg hm]
      obtain ⟨b, hb, hprops⟩ := ih
      exact ⟨b, List.mem_cons_of_mem s hb, hprops⟩

theorem upsert_unique (u d : Nat) (tok : Token) (now : Nat) :
    ∀ l : List Session, uniqueDeviceIds l →
      uniqueDeviceIds (upsertSession u d tok now l) := by
  intro l
  induction l with
  | nil =>
    intro _
    unfold uniqueDeviceIds upsertSession
    simp
  | cons s rest ih =>
    intro hu
    have hu1 : ∀ x ∈ rest, s.deviceId ≠ x.deviceId := (List.pairwise_cons.mp hu).1
    have hu2 : uniqueDeviceIds rest := (List.pairwise_cons.mp hu).2
    rw [upsertSession]
    by_cases hm : s.deviceId = d
    · rw [if_pos hm]
      unfold uniqueDeviceIds
      rw [List.pairwise_cons]
      exact ⟨fun b hb => hu1 b hb, hu2⟩
    · rw [if_neg hm]
      unfold uniqueDeviceIds
      rw [List.pairwise_cons]
      refine ⟨?_, ih hu2⟩
      intro b hb
      rcases upsert_mem_char u d tok now rest hu2 b hb with ⟨hbd, _, _⟩ | ⟨hb2, _⟩
      · rw [hbd]; exact hm
      · exact hu1 b hb2

theorem applyUpserts_unique (ops : List (Nat × Nat × Token × Nat)) :
    ∀ l : List Session, uniqueDeviceIds l → uniqueDeviceIds (applyUpserts ops l) := by
  induction ops with
  | nil => intro l hu; exact hu
  | cons op rest ih =>
    intro l hu
    simp only [applyUpserts, List.foldl_cons] at *
    exact ih _ (upsert_unique _ _ _ _ l hu)

/-- Claim C4: two consecutive upserts for the same deviceId leave exactly
one session for that device, active and holding the second token; the first
token (fresh, distinct from the second, previously unstored) no longer
matches any session and is unusable for rotation on any device; and
deviceId uniqueness is preserved under any sequence of upserts. -/
theorem upsert_idempotent_per_device (st : Store) (cfg : JWTConfig)
    (u1 u2 d now1 now2 now3 : Nat) (t1 t2 : Token)
    (hu : uniqueDeviceIds st.sessions) (hne : t1 ≠ t2)
    (hfresh : ∀ s ∈ st.sessions, s.refreshToken ≠ some t1)
    (hver : verifyRefreshToken cfg t1 now3 = .ok t1) :
    ((upsertSession u2 d t2 now2 (upsertSession u1 d t1 now1 st.sessions)).countP
        (fun s => decide (s.deviceId = d)) = 1) ∧
    (∃ b ∈ upsertSession u2 d t2 now2 (upsertSession u1 d t1 now1 st.sessions),
        b.deviceId = d ∧ b.refreshToken = some t2 ∧ b.isActive = true) ∧
    uniqueDeviceIds
      (upsertSession u2 d t2 now2 (upsertSession u1 d t1 now1 st.sessions)) ∧
    (∀ d2 n, refreshTokens cfg
        { sessions := upsertSession u2 d t2 now2 (upsertSession u1 d t1 now1 st.sessions),
          nextJti := n } t1 d2 now3 = .error .sessionNotFound) ∧
    (∀ ops l, uniqueDeviceIds l → uniqueDeviceIds (applyUpserts ops l)) := by
  have huA : uniqueDeviceIds (upsertSession u1 d t1 now1 st.sessions) :=
    upsert_unique _ _ _ _ _ hu
  refine ⟨upsert_countP _ _ _ _ _ huA, upsert_exists _ _ _ _ _,
    upsert_unique _ _ _ _ _ huA, ?_, fun ops l h => applyUpserts_unique ops l h⟩
  intro d2 n
  apply refreshTokens_eq_sessionNotFound cfg _ t1 d2 now3 hver
  apply rotateSessions_none
  intro x hx
  rw [← Bool.not_eq_true]
  intro hc
  obtain ⟨_, hxr, _, _⟩ := (matchesRefresh_iff x t1 d2 now3).mp hc
  rcases upsert_mem_char u2 d t2 now2 _ huA x hx with ⟨_, hxt, _⟩ | ⟨hx1, hxnd⟩
  · rw [hxt] at hxr
    exact hne (Option.some.inj hxr).symm
  · rcases upsert_mem_char u1 d t1 now1 _ hu x hx1 with ⟨hxd2, _, _⟩ | ⟨hx0, _⟩
    · exact hxnd hxd2
    · exact hfresh x hx0 hxr

theorem upsert_idempotent_per_device_witness :
    (uniqueDeviceIds stEmpty.sessions ∧ r0 ≠ r1 ∧
     (∀ s ∈ stEmpty.sessions, s.refreshToken ≠ some r0) ∧
     verifyRefreshToken cfg0 r0 10 = .ok r0) ∧
    (((upsertSession 1 5 r1 7 (upsertSession 1 5 r0 3 stEmpty.sessions)).countP
        (fun s => decide (s.deviceId = 5)) = 1) ∧
     (∃ b ∈ upsertSession 1 5 r1 7 (upsertSession 1 5 r0 3 stEmpty.sessions),
        b.deviceId = 5 ∧ b.refreshToken = some r1 ∧ b.isActive = true) ∧
     uniqueDeviceIds
       (upsertSession 1 5 r1 7 (upsertSession 1 5 r0 3 stEmpty.sessions)) ∧
     (∀ d2 n, refreshTokens cfg0
        { sessions := upsertSession 1 5 r1 7 (upsertSession 1 5 r0 3 stEmpty.sessions),
          nextJti := n } r0 d2 10 = .error .sessionNotFound) ∧
     (∀ ops l, uniqueDeviceIds l → uniqueDeviceIds (applyUpserts ops l))) :=
  ⟨⟨by simp [uniqueDeviceIds, stEmpty],
    by decide,
    by intro s hs; simp [stEmpty] at hs,
    by rfl⟩,
   upsert_idempotent_per_device stEmpty cfg0 1 1 5 3 7 10 r0 r1
     (by simp [uniqueDeviceIds, stEmpty])
     (by decide)
     (by intro s hs; simp [stEmpty] at hs)
     (by rfl)⟩

/-! Helper lemmas about the association-list maps and the output counter. -/

theorem countOut_nil (o : SockOut) : countOut o [] = 0 := rfl

theorem countOut_cons_self (o : SockOut) (l : List SockOut) :
    countOut o (o :: l) = countOut o l + 1 :=
  List.countP_cons_of_pos _ _ (by simp)

theorem countOut_cons_ne (o a : SockOut) (l : List SockOut) (h : a ≠ o) :
    countOut o (a :: l) = countOut o l :=
  List.countP_cons_of_neg _ _ (by simp [h])

theorem countOut_append (o : SockOut) (l1 l2 : List SockOut) :
    countOut o (l1 ++ l2) = countOut o l1 + countOut o l2 :=
  List.countP_append _ _ _

theorem lookupEntry_setEntry_self {α β : Type} [DecidableEq α] (k : α) (v : β) :
    ∀ l : List (α × β), lookupEntry k (setEntry k v l) = some v := by
  intro l
  induction l with
  | nil => simp [setEntry, lookupEntry]
  | cons e rest ih =>
    rw [setEntry]
    by_cases he : e.1 = k
    · rw [if_pos he, lookupEntry, if_pos rfl]
    · rw [if_neg he, lookupEntry, if_neg he, ih]

theorem lookupEntry_eq_none_of_not_mem {α β : Type} [DecidableEq α] (k : α) :
    ∀ l : List (α × β), k ∉ l.map Prod.fst → lookupEntry k l = none := by
  intro l
  induction l with
  | nil => intro _; rfl
  | cons e rest ih =>
    intro h
    have h1 : e.1 ≠ k := fun hc => h (by simp [hc])
    have h2 : k ∉ rest.map Prod.fst := fun hc => h (by simp [hc])
    rw [lookupEntry, if_neg h1, ih h2]

theorem removeEntry_sublist {α β : Type} [DecidableEq α] (k : α) :
    ∀ l : List (α × β), (removeEntry k l).Sublist l := by
  intro l
  induction l with
  | nil => exact List.Sublist.refl []
  | cons e rest ih =>
    rw [removeEntry]
    by_cases he : e.1 = k
    · rw [if_pos he]; exact (List.Sublist.refl rest).cons e
    · rw [if_neg he]; exact ih.cons₂ e

theorem keysNodup_removeEntry {α β : Type} [DecidableEq α] (k : α)
    (l : List (α × β)) (h : keysNodup l) : keysNodup (removeEntry k l) :=
  List.Nodup.sublist ((removeEntry_sublist k l).map Prod.fst) h

theorem lookupEntry_removeEntry_self {α β : Type} [DecidableEq α] (k : α) :
    ∀ l : List (α × β), keysNodup l → lookupEntry k (removeEntry k l) = none := by
  intro l
  induction l with
  | nil => intro _; rfl
  | cons e rest ih =>
    intro h
    obtain ⟨h1, h2⟩ := List.nodup_cons.mp h
    rw [removeEntry]
    by_cases he : e.1 = k
    · rw [if_pos he]
      exact lookupEntry_eq_none_of_not_mem k rest (he ▸ h1)
    · rw [if_neg he, lookupEntry, if_neg he]
      exact ih h2

theorem mem_keys_setEntry {α β : Type} [DecidableEq α] (k x : α) (v : β) :
    ∀ l : List (α × β), x ∈ (setEntry k v l).map Prod.fst →
      x = k ∨ x ∈ l.map Prod.fst := by
  intro l
  induction l with
  | nil =>
    intro h
    simp [setEntry] at h
    exact Or.inl h
  | cons e rest ih =>
    intro h
    rw [setEntry] at h
    by_cases he : e.1 = k
    · rw [if_pos he] at h
      rcases (by simpa using h : x = k ∨ x ∈ rest.map Prod.fst) with h2 | h2
      · exact Or.inl h2
      · exact Or.inr (by simp [h2])
    · rw [if_neg he] at h
      rcases (by simpa using h : x = e.1 ∨ x ∈ (setEntry k v rest).map Prod.fst)
          with h2 | h2
      · exact Or.inr (by simp [h2])
      · rcases ih h2 with h3 | h3
        · exact Or.inl h3
        · exact Or.inr (by simp [h3])

theorem keysNodup_setEntry {α β : Type} [DecidableEq α] (k : α) (v : β) :
    ∀ l : List (α × β), keysNodup l → keysNodup (setEntry k v l) := by
  intro l
  induction l with
  | nil => intro _; simp [setEntry, keysNodup]
  | cons e rest ih =>
    intro h
    obtain ⟨h1, h2⟩ := List.nodup_cons.mp h
    rw [setEntry]
    by_cases he : e.1 = k
    · rw [if_pos he]
      refine List.nodup_cons.mpr ⟨he ▸ h1, h2⟩
    · rw [if_neg he]
      refine List.nodup_cons.mpr ⟨?_, ih h2⟩
      intro hc
      rcases mem_keys_setEntry k e.1 v rest hc with h3 | h3
      · exact he h3
      · exact h1 h3

/-! Helper lemmas about the connection tracker. -/

theorem handleDisconnection_userSocketsOf (t : Tracker) (sid u : Nat)
    (hk : keysNodup t.connectedUsers) :
    userSocketsOf (handleDisconnection t sid u).1 u
      = (userSocketsOf t u).erase sid := by
  rw [handleDisconnection]
  split
  next hl => simp [userSocketsOf, hl]
  next sockets hl =>
    by_cases he : (sockets.erase sid).isEmpty = true
    · rw [if_pos he]
      have h0 : sockets.erase sid = [] := List.isEmpty_iff.mp he
      simp [userSocketsOf, lookupEntry_removeEntry_self u _ hk, hl, h0]
    · rw [if_neg he]
      simp [userSocketsOf, lookupEntry_setEntry_self, hl]

theorem handleDisconnection_keysNodup (t : Tracker) (sid u : Nat)
    (hk : keysNodup t.connectedUsers) :
    keysNodup (handleDisconnection t sid u).1.connectedUsers := by
  rw [handleDisconnection]
  split
  next hl => exact hk
  next sockets hl =>
    by_cases he : (sockets.erase sid).isEmpty = true
    · rw [if_pos he]
      exact keysNodup_removeEntry u _ hk
    · rw [if_neg he]
      exact keysNodup_setEntry u _ _ hk

theorem handleDisconnection_outs (t : Tracker) (sid u : Nat) :
    (handleDisconnection t sid u).2 = [] ∨
    (handleDisconnection t sid u).2 = [SockOut.statusBroadcast u false] := by
  rw [handleDisconnection]
  split
  next hl => exact Or.inl rfl
  next sockets hl =>
    by_cases he : (sockets.erase sid).isEmpty = true
    · rw [if_pos he]; exact Or.inr rfl
    · rw [if_neg he]; exact Or.inl rfl

theorem handleDisconnection_count_forceMsg (t : Tracker) (sid u x : Nat)
    (reason : String) :
    countOut (SockOut.forceMsg x reason) (handleDisconnection t sid u).2 = 0 := by
  rcases handleDisconnection_outs t sid u with h | h <;> rw [h]
  · rfl
  · rw [countOut_cons_ne _ _ _ (by simp), countOut_nil]

theorem forceLoop_count_zero (u : Nat) (reason : String) (live : Nat → Bool)
    (x : Nat) :
    ∀ todo : List Nat, ∀ t : Tracker, x ∉ todo →
      countOut (SockOut.forceMsg x reason) (forceLoop u reason live t todo).2 = 0 := by
  intro todo
  induction todo with
  | nil => intro t _; rfl
  | cons sid rest ih =>
    intro t hx
    have hsx : sid ≠ x := fun hc => hx (hc ▸ List.mem_cons_self sid rest)
    have hxr : x ∉ rest := fun hc => hx (List.mem_cons_of_mem _ hc)
    rw [forceLoop]
    by_cases hl : live sid = true
    · rw [if_pos hl]
      rw [countOut_cons_ne _ _ _ (by simp [hsx]),
        countOut_cons_ne _ _ _ (by simp), countOut_append,
        handleDisconnection_count_forceMsg, ih _ hxr]
    · rw [if_neg hl]
      exact ih t hxr

theorem forceLoop_count (u : Nat) (reason : String) (live : Nat → Bool) (x : Nat) :
    ∀ todo : List Nat, ∀ t : Tracker, todo.Nodup → x ∈ todo → live x = true →
      countOut (SockOut.forceMsg x reason) (forceLoop u reason live t todo).2 = 1 ∧
      ∃ l1 l2, (forceLoop u reason live t todo).2
          = l1 ++ SockOut.forceMsg x reason :: SockOut.severed x :: l2 := by
  intro todo
  induction todo with
  | nil => intro t _ hx _; cases hx
  | cons sid rest ih =>
    intro t hnd hx hlx
    obtain ⟨hs1, hs2⟩ := List.nodup_cons.mp hnd
    rcases List.mem_cons.mp hx with rfl | hxr
    · rw [forceLoop, if_pos hlx]
      constructor
      · rw [countOut_cons_self, countOut_cons_ne _ _ _ (by simp), countOut_append,
          handleDisconnection_count_forceMsg, forceLoop_count_zero u reason live x rest _ hs1]
      · exact ⟨[], (handleDisconnection t x u).2 ++
          (forceLoop u reason live (handleDisconnection t x u).1 rest).2, rfl⟩
    · have hsx : sid ≠ x := fun hc => hs1 (hc ▸ hxr)
      rw [forceLoop]
      by_cases hl : live sid = true
      · rw [if_pos hl]
        obtain ⟨hc1, l1, l2, hdecomp⟩ := ih (handleDisconnection t sid u).1 hs2 hxr hlx
        constructor
        · rw [countOut_cons_ne _ _ _ (by simp [hsx]),
            countOut_cons_ne _ _ _ (by simp), countOut_append,
            handleDisconnection_count_forceMsg, hc1]
        · exact ⟨SockOut.forceMsg sid reason :: SockOut.severed sid ::
            ((handleDisconnection t sid u).2 ++ l1), l2, by
              dsimp only
              rw [hdecomp]
              simp⟩
      · rw [if_neg hl]
        exact ih t hs2 hxr hlx

theorem forceLoop_clears (u : Nat) (reason : String) (live : Nat → Bool) :
    ∀ todo : List Nat, ∀ t : Tracker,
      keysNodup t.connectedUsers → (userSocketsOf t u).Nodup →
      (∀ x ∈ userSocketsOf t u, live x = true → x ∈ todo) →
      (userSocketsOf (forceLoop u reason live t todo).1 u).filter live = [] := by
  intro todo
  induction todo with
  | nil =>
    intro t hk hnd hcov
    rw [forceLoop, List.filter_eq_nil_iff]
    intro x hx hlx
    exact absurd (hcov x hx hlx) (List.not_mem_nil x)
  | cons sid rest ih =>
    intro t hk hnd hcov
    rw [forceLoop]
    by_cases hl : live sid = true
    · rw [if_pos hl]
      refine ih (handleDisconnection t sid u).1
        (handleDisconnection_keysNodup t sid u hk) ?_ ?_
      · rw [handleDisconnection_userSocketsOf t sid u hk]
        exact hnd.erase sid
      · intro x hx hlx
        rw [handleDisconnection_userSocketsOf t sid u hk] at hx
        have hxne : x ≠ sid := ((List.Nodup.mem_erase_iff hnd).mp hx).1
        have hxmem : x ∈ userSocketsOf t u := ((List.Nodup.mem_erase_iff hnd).mp hx).2
        rcases List.mem_cons.mp (hcov x hxmem hlx) with hc | hc
        · exact absurd hc hxne
        · exact hc
    · rw [if_neg hl]
      refine ih t hk hnd ?_
      intro x hx hlx
      have hxne : x ≠ sid := fun hc => hl (hc ▸ hlx)
      rcases List.mem_cons.mp (hcov x hx hlx) with hc | hc
      · exact absurd hc hxne
      · exact hc

/-- Claim C6: after `forceDisconnectUser u reason`, the user has zero live
tracked connections, and every connection that was live at the moment of the
call received exactly one `force_disconnect` notice carrying the reason,
emitted immediately before that connection was severed. -/
theorem forceDisconnect_spec (t : Tracker) (u : Nat) (reason : String)
    (live : Nat → Bool) (hk : keysNodup t.connectedUsers)
    (hnd : (userSocketsOf t u).Nodup) :
    ((userSocketsOf (forceDisconnectUser t u reason live).1 u).filter live = []) ∧
    (∀ sid ∈ userSocketsOf t u, live sid = true →
      countOut (SockOut.forceMsg sid reason)
          (forceDisconnectUser t u reason live).2.1 = 1 ∧
      ∃ l1 l2, (forceDisconnectUser t u reason live).2.1
          = l1 ++ SockOut.forceMsg sid reason :: SockOut.severed sid :: l2) := by
  rw [forceDisconnectUser]
  split
  next hl =>
    have h0 : userSocketsOf t u = [] := by simp [userSocketsOf, hl]
    constructor
    · simp [h0]
    · intro sid hsid
      rw [h0] at hsid
      cases hsid
  next sockets hl =>
    have hsw : userSocketsOf t u = sockets := by simp [userSocketsOf, hl]
    constructor
    · exact forceLoop_clears u reason live sockets t hk hnd
        (by intro x hx _; rw [hsw] at hx; exact hx)
    · intro sid hsid hlsid
      rw [hsw] at hsid
      exact forceLoop_count u reason live sid sockets t (hsw ▸ hnd) hsid hlsid

theorem forceDisconnect_spec_witness :
    (keysNodup tracker6.connectedUsers ∧ (userSocketsOf tracker6 7).Nodup) ∧
    (((userSocketsOf (forceDisconnectUser tracker6 7 "revoked" allLive).1 7).filter
        allLive = []) ∧
     (∀ sid ∈ userSocketsOf tracker6 7, allLive sid = true →
       countOut (SockOut.forceMsg sid "revoked")
           (forceDisconnectUser tracker6 7 "revoked" allLive).2.1 = 1 ∧
       ∃ l1 l2, (forceDisconnectUser tracker6 7 "revoked" allLive).2.1
           = l1 ++ SockOut.forceMsg sid "revoked" :: SockOut.severed sid :: l2)) :=
  ⟨⟨by unfold keysNodup; decide, by decide⟩,
   forceDisconnect_spec tracker6 7 "revoked" allLive
     (by unfold keysNodup; decide) (by decide)⟩

/-- Claim C8 counterexample: user 3 has sockets 1 and 2 tracked, socket 1 is
dead (absent from `io.sockets.sockets`).  `forceDisconnectUser` still
delivers the notice to socket 2, skips socket 1 (one delivery failure), yet
returns no aggregate failure count to its caller: the JS function has no
return statement. -/
theorem forceDisconnect_returns_no_count :
    (forceDisconnectUser tracker8 3 "bye" live8).2.2 = none ∧
    countOut (SockOut.forceMsg 2 "bye")
      (forceDisconnectUser tracker8 3 "bye" live8).2.1 = 1 ∧
    countOut (SockOut.forceMsg 1 "bye")
      (forceDisconnectUser tracker8 3 "bye" live8).2.1 = 0 := by
  refine ⟨rfl, by decide, by decide⟩

/-- Claim C8 amended: a failed delivery to one connection does not prevent
delivery to the remaining live connections (each live tracked connection
still receives exactly one notice), but neither `forceDisconnectUser` nor
the room broadcast returns an aggregate failure count: both return no
value. -/
theorem fanout_isolation_no_count (t : Tracker) (u : Nat) (reason : String)
    (live : Nat → Bool) (room : List Nat) (event : String)
    (_hk : keysNodup t.connectedUsers) (hnd : (userSocketsOf t u).Nodup) :
    (∀ sid ∈ userSocketsOf t u, live sid = true →
      countOut (SockOut.forceMsg sid reason)
        (forceDisconnectUser t u reason live).2.1 = 1) ∧
    (forceDisconnectUser t u reason live).2.2 = none ∧
    (broadcastToUser room event).2 = none := by
  refine ⟨?_, ?_, rfl⟩
  · intro sid hsid hlsid
    rw [forceDisconnectUser]
    split
    next hl =>
      rw [userSocketsOf, hl] at hsid
      cases hsid
    next sockets hl =>
      have hsw : userSocketsOf t u = sockets := by simp [userSocketsOf, hl]
      rw [hsw] at hsid
      exact (forceLoop_count u reason live sid sockets t (hsw ▸ hnd) hsid hlsid).1
  · rw [forceDisconnectUser]
    split <;> rfl

theorem fanout_isolation_no_count_witness :
    (keysNodup tracker8.connectedUsers ∧ (userSocketsOf tracker8 3).Nodup) ∧
    ((∀ sid ∈ userSocketsOf tracker8 3, live8 sid = true →
       countOut (SockOut.forceMsg sid "bye")
         (forceDisconnectUser tracker8 3 "bye" live8).2.1 = 1) ∧
     (forceDisconnectUser tracker8 3 "bye" live8).2.2 = none ∧
     (broadcastToUser [1, 2] "notice").2 = none) :=
  ⟨⟨by unfold keysNodup; decide, by decide⟩,
   fanout_isolation_no_count tracker8 3 "bye" live8 [1, 2] "notice"
     (by unfold keysNodup; decide) (by decide)⟩

/-- Claim C5 counterexample: after socket 1 of user 7 connects, the user is
already online (non-empty socket set), yet a second connection of the same
user emits the online status broadcast again: the side effect fires on
every connection, not only when the set becomes non-empty. -/
theorem online_event_fires_every_connection :
    userSocketsOf (handleConnection emptyTracker 1 7).1 7 ≠ [] ∧
    countOut (SockOut.statusBroadcast 7 true)
      (handleConnection (handleConnection emptyTracker 1 7).1 2 7).2 = 1 := by
  refine ⟨by decide, by decide⟩

/-- Claim C5 amended: the online status broadcast fires on every connection
(including connections of an already-online user); after `onConnect c1`,
`onConnect c2` and `onDisconnect c1` the user is still online and no
offline broadcast has fired; after `onDisconnect c2` the offline broadcast
fires exactly once and the user entry is gone. -/
theorem presence_transitions (u c1 c2 : Nat) (hne : c1 ≠ c2) :
    countOut (SockOut.statusBroadcast u true)
      (handleConnection emptyTracker c1 u).2 = 1 ∧
    countOut (SockOut.statusBroadcast u true)
      (handleConnection (handleConnection emptyTracker c1 u).1 c2 u).2 = 1 ∧
    userSocketsOf (handleDisconnection
      (handleConnection (handleConnection emptyTracker c1 u).1 c2 u).1 c1 u).1 u
      ≠ [] ∧
    countOut (SockOut.statusBroadcast u false)
      (handleDisconnection
        (handleConnection (handleConnection emptyTracker c1 u).1 c2 u).1 c1 u).2
      = 0 ∧
    countOut (SockOut.statusBroadcast u false)
      (handleDisconnection (handleDisconnection
        (handleConnection (handleConnection emptyTracker c1 u).1 c2 u).1 c1 u).1
        c2 u).2 = 1 ∧
    lookupEntry u (handleDisconnection (handleDisconnection
      (handleConnection (handleConnection emptyTracker c1 u).1 c2 u).1 c1 u).1
      c2 u).1.connectedUsers = none := by
  have hne2 : c2 ≠ c1 := Ne.symm hne
  refine ⟨?_, ?_, ?_, ?_, ?_, ?_⟩ <;>
    simp [handleConnection, handleDisconnection, userSocketsOf, lookupEntry,
      setEntry, removeEntry, addSocket, emptyTracker, countOut,
      List.countP_cons, hne, hne2]

theorem presence_transitions_witness :
    (1 : Nat) ≠ 2 ∧
    (countOut (SockOut.statusBroadcast 7 true)
       (handleConnection emptyTracker 1 7).2 = 1 ∧
     countOut (SockOut.statusBroadcast 7 true)
       (handleConnection (handleConnection emptyTracker 1 7).1 2 7).2 = 1 ∧
     userSocketsOf (handleDisconnection
       (handleConnection (handleConnection emptyTracker 1 7).1 2 7).1 1 7).1 7
       ≠ [] ∧
     countOut (SockOut.statusBroadcast 7 false)
       (handleDisconnection
         (handleConnection (handleConnection emptyTracker 1 7).1 2 7).1 1 7).2
       = 0 ∧
     countOut (SockOut.statusBroadcast 7 false)
       (handleDisconnection (handleDisconnection
         (handleConnection (handleConnection emptyTracker 1 7).1 2 7).1 1 7).1
         2 7).2 = 1 ∧
     lookupEntry 7 (handleDisconnection (handleDisconnection
       (handleConnection (handleConnection emptyTracker 1 7).1 2 7).1 1 7).1
       2 7).1.connectedUsers = none) :=
  ⟨by decide, presence_transitions 7 1 2 (by decide)⟩

end GoalSync
